import Mathlib

/-!
Verification of the btrbk_restore snapshot tools against their
natural-language specification.

The Python sources are shallowly embedded:

* strings are Lean `String`s; Python string comparison (code-point
  lexicographic) is embedded as a structural boolean comparison on
  `String.data`, so that concrete instances evaluate by `decide`;
* directory listings are `List String` (the names in the directory),
  with `os.listdir` failure modelled as `Option.none` and `os.path.isdir`
  as a boolean predicate supplied by the environment;
* external commands (`mv`, `btrfs subvolume snapshot`,
  `btrfs subvolume delete`) are modelled by an outcome oracle
  `Cmd -> Bool`; functions additionally return the trace of commands they
  attempted, in order;
* `try ... except` blocks that swallow an exception and return a fallback
  value are embedded as total functions returning that fallback.
-/

/-! ## Code-point lexicographic order on strings

Python compares strings by code points, lexicographically.  `lexLt` is
that strict order on `List Char`; `pyStrLt` and `pyStrLe` lift it to
`String`.  These are structural recursions, so `decide` evaluates them. -/

/-- Strict code-point lexicographic order on lists of characters, as Python
compares strings. -/
def lexLt : List Char → List Char → Bool
  | _, [] => false
  | [], _ :: _ => true
  | a :: as, b :: bs => if a < b then true else if b < a then false else lexLt as bs

/-- Python `s1 < s2` on strings. -/
def pyStrLt (s₁ s₂ : String) : Bool := lexLt s₁.data s₂.data

/-- Python `s1 <= s2` on strings. -/
def pyStrLe (s₁ s₂ : String) : Bool := !(pyStrLt s₂ s₁)

theorem lexLt_asymm : ∀ {l₁ l₂ : List Char}, lexLt l₁ l₂ = true → lexLt l₂ l₁ = false
  | _, [], h => by simp [lexLt] at h
  | [], _ :: _, _ => by simp [lexLt]
  | a :: as, b :: bs, h => by
    simp only [lexLt] at h ⊢
    rcases lt_trichotomy a b with hab | hab | hab
    · simp [hab, not_lt_of_lt hab]
    · subst hab
      simp only [lt_irrefl, if_false] at h ⊢
      exact lexLt_asymm h
    · simp [hab, not_lt_of_lt hab] at h

theorem lexLt_conn : ∀ {l₁ l₂ : List Char},
    lexLt l₁ l₂ = false → lexLt l₂ l₁ = false → l₁ = l₂
  | [], [], _, _ => rfl
  | [], _ :: _, h, _ => by simp [lexLt] at h
  | _ :: _, [], _, h => by simp [lexLt] at h
  | a :: as, b :: bs, h₁, h₂ => by
    simp only [lexLt] at h₁ h₂
    rcases lt_trichotomy a b with hab | hab | hab
    · simp [hab] at h₁
    · subst hab
      simp only [lt_irrefl, if_false] at h₁ h₂
      exact congrArg (a :: ·) (lexLt_conn h₁ h₂)
    · simp [hab] at h₂

theorem lexLt_trans : ∀ {l₁ l₂ l₃ : List Char},
    lexLt l₁ l₂ = true → lexLt l₂ l₃ = true → lexLt l₁ l₃ = true
  | _, _, [], _, h₂ => by simp [lexLt] at h₂
  | [], _ :: _, _ :: _, _, _ => by simp [lexLt]
  | _ :: _, [], _, h₁, _ => by simp [lexLt] at h₁
  | a :: as, b :: bs, c :: cs, h₁, h₂ => by
    simp only [lexLt] at h₁ h₂ ⊢
    rcases lt_trichotomy a b with hab | hab | hab
    · rcases lt_trichotomy b c with hbc | hbc | hbc
      · simp [lt_trans hab hbc]
      · subst hbc; simp [hab]
      · simp [hbc, not_lt_of_lt hbc] at h₂
    · subst hab
      rcases lt_trichotomy a c with hac | hac | hac
      · simp [hac]
      · subst hac
        simp only [lt_irrefl, if_false] at h₁ h₂ ⊢
        exact lexLt_trans h₁ h₂
      · simp [hac, not_lt_of_lt hac] at h₂
    · simp [hab, not_lt_of_lt hab] at h₁

theorem pyStrLe_total (s₁ s₂ : String) : pyStrLe s₁ s₂ = true ∨ pyStrLe s₂ s₁ = true := by
  unfold pyStrLe pyStrLt
  rcases h : lexLt s₂.data s₁.data with _ | _
  · left; simp [h]
  · right; simp [lexLt_asymm h]

theorem pyStrLe_trans {s₁ s₂ s₃ : String}
    (h₁ : pyStrLe s₁ s₂ = true) (h₂ : pyStrLe s₂ s₃ = true) : pyStrLe s₁ s₃ = true := by
  unfold pyStrLe pyStrLt at h₁ h₂ ⊢
  simp only [Bool.not_eq_true'] at h₁ h₂ ⊢
  rcases h₃ : lexLt s₃.data s₁.data with _ | _
  · rfl
  · rcases h₄ : lexLt s₁.data s₂.data with _ | _
    · have h₅ := lexLt_conn h₄ h₁; rw [h₅] at h₃; rw [h₃] at h₂; simp at h₂
    · have h₅ := lexLt_trans h₃ h₄; rw [h₅] at h₂; simp at h₂

theorem pyStrLe_antisymm {s₁ s₂ : String}
    (h₁ : pyStrLe s₁ s₂ = true) (h₂ : pyStrLe s₂ s₁ = true) : s₁ = s₂ := by
  unfold pyStrLe pyStrLt at h₁ h₂
  simp only [Bool.not_eq_true'] at h₁ h₂
  cases s₁; cases s₂
  exact congrArg String.mk (lexLt_conn h₂ h₁)

/-! Relations used by the sorts in the source, as propositions over the
boolean comparisons (so that `decide` still works on concrete data).
`sortAsc` is Python `list.sort()`; `sortDesc` is `list.sort(reverse=True)`. -/

/-- Ascending order relation of Python `list.sort()` on strings. -/
def ascLe (s₁ s₂ : String) : Prop := pyStrLe s₁ s₂ = true

/-- Descending order relation of Python `list.sort(reverse=True)` on strings. -/
def descLe (s₁ s₂ : String) : Prop := pyStrLe s₂ s₁ = true

instance : DecidableRel ascLe := fun s₁ s₂ => by unfold ascLe; infer_instance

instance : DecidableRel descLe := fun s₁ s₂ => by unfold descLe; infer_instance

instance : IsTotal String ascLe := ⟨pyStrLe_total⟩

instance : IsTrans String ascLe := ⟨fun _ _ _ => pyStrLe_trans⟩

instance : IsAntisymm String ascLe := ⟨fun _ _ => pyStrLe_antisymm⟩

instance : IsTotal String descLe := ⟨fun s₁ s₂ => (pyStrLe_total s₂ s₁)⟩

instance : IsTrans String descLe := ⟨fun _ _ _ h₁ h₂ => pyStrLe_trans h₂ h₁⟩

instance : IsAntisymm String descLe := ⟨fun _ _ h₁ h₂ => pyStrLe_antisymm h₂ h₁⟩

/-- Python `list.sort()` on strings: stable ascending sort. -/
def sortAsc (l : List String) : List String := l.insertionSort ascLe

/-- Python `list.sort(reverse=True)` on strings: stable descending sort. -/
def sortDesc (l : List String) : List String := l.insertionSort descLe

/-! ## String primitives of the source

`startsW s p` is Python `s.startswith(p)`, `hasDot s` is Python
`"." in s`, `keyOf s` is Python `s.split(".")[0]` (the part before the
first dot), `strTail s` is Python `s[1:]`, and `pjoin` is
`os.path.join` for a relative second component. -/

/-- Python `s.startswith(p)`. -/
def startsW (s p : String) : Bool := p.data.isPrefixOf s.data

/-- Python `"." in s`. -/
def hasDot (s : String) : Bool := s.data.contains '.'

/-- Python `s.split(".")[0]`: the longest dot-free initial segment. -/
def keyOf (s : String) : String := ⟨s.data.takeWhile (fun c => c != '.')⟩

/-- Python `s[1:]`. -/
def strTail (s : String) : String := ⟨s.data.drop 1⟩

/-- `os.path.join dir name` for a relative `name`. -/
def pjoin (dir name : String) : String := dir ++ "/" ++ name

theorem startsW_iff {s p : String} : startsW s p = true ↔ p.data <+: s.data := by
  unfold startsW
  exact List.isPrefixOf_iff_prefix

/-! ## SnapshotRepository: discovery and grouping

Embeds `SnapshotManager.get_snapshots` of `btrbk_restore_tui_pro.py`
(lines 77-102).  The directory listing `os.listdir(snapshots_dir)` is the
`Option (List String)` argument (`none` when it raises), `os.path.isdir`
is the boolean predicate, and the `snapshot_groups` dict is an
association list in insertion order. -/

/-- A directory entry qualifies for grouping when its name contains a dot
and starts with an at sign (line 87 of the source). -/
def qualifies (f : String) : Bool := hasDot f && startsW f "@"

/-- One iteration of the dict-building loop: append `f` to the group of
key `p`, creating the group at the end when the key is new. -/
def addToGroups : List (String × List String) → String → String → List (String × List String)
  | [], p, f => [(p, [f])]
  | (q, l) :: rest, p, f =>
    if q = p then (q, l ++ [f]) :: rest else (q, l) :: addToGroups rest p f

/-- The grouping loop of `get_snapshots` over the filtered folder list. -/
def buildGroups (folders : List String) : List (String × List String) :=
  folders.foldl (fun gs f => if qualifies f then addToGroups gs (keyOf f) f else gs) []

/-- Python `snapshot_groups.get(p, [])` over the association list. -/
def lookupGroup (gs : List (String × List String)) (p : String) : List String :=
  match gs.find? (fun g => decide (g.1 = p)) with
  | some g => g.2
  | none => []

/-- The ordering key of `sorted(snapshot_groups.keys(), key=lambda x: (x != "@", x))`:
the literal key `"@"` first, the rest in ascending string order. -/
def keyLe (a b : String) : Prop := a = "@" ∨ (b ≠ "@" ∧ ascLe a b)

instance : DecidableRel keyLe := fun a b => by unfold keyLe; infer_instance

instance : IsTotal String keyLe := by
  constructor
  intro a b
  by_cases ha : a = "@"
  · exact Or.inl (Or.inl ha)
  · by_cases hb : b = "@"
    · exact Or.inr (Or.inl hb)
    · rcases pyStrLe_total a b with h | h
      · exact Or.inl (Or.inr ⟨hb, h⟩)
      · exact Or.inr (Or.inr ⟨ha, h⟩)

instance : IsTrans String keyLe := by
  constructor
  intro a b c hab hbc
  rcases hab with ha | ⟨hb, hab⟩
  · exact Or.inl ha
  · rcases hbc with hb' | ⟨hc, hbc⟩
    · exact absurd hb' hb
    · exact Or.inr ⟨hc, pyStrLe_trans hab hbc⟩

/-- `SnapshotManager.get_snapshots`: returns the grouped snapshots (each
group sorted newest first) and the sorted group keys.  On a listing
failure the `except` branch returns the empty dict and list. -/
def get_snapshots (listdir : Option (List String)) (isDir : String → Bool) :
    List (String × List String) × List String :=
  match listdir with
  | none => ([], [])
  | some items =>
    let folders := items.filter isDir
    let snapshot_groups := buildGroups folders
    let sortedGroups := snapshot_groups.map (fun g => (g.1, sortDesc g.2))
    let sortedKeys := (snapshot_groups.map Prod.fst).insertionSort keyLe
    (sortedGroups, sortedKeys)

/-! Characterization of the grouping. -/

theorem lookupGroup_addToGroups (gs : List (String × List String)) (q f p : String) :
    lookupGroup (addToGroups gs q f) p =
      lookupGroup gs p ++ (if q = p then [f] else []) := by
  induction gs with
  | nil =>
    by_cases h : q = p <;> simp [addToGroups, lookupGroup, List.find?, h]
  | cons g rest ih =>
    obtain ⟨q', l⟩ := g
    by_cases h : q' = q
    · subst h
      by_cases h' : q' = p <;> simp [addToGroups, lookupGroup, List.find?, h']
    · by_cases h' : q' = p
      · subst h'
        have : ¬ q = q' := fun hc => h hc.symm
        simp [addToGroups, h, lookupGroup, List.find?, this]
      · simp only [addToGroups, if_neg h]
        simp only [lookupGroup, List.find?, decide_eq_true_eq] at ih ⊢
        simp [h', ih]

theorem lookupGroup_foldl (fs : List String) (gs : List (String × List String)) (p : String) :
    lookupGroup
        (fs.foldl (fun gs f => if qualifies f then addToGroups gs (keyOf f) f else gs) gs) p =
      lookupGroup gs p ++ fs.filter (fun f => qualifies f && decide (keyOf f = p)) := by
  induction fs generalizing gs with
  | nil => simp
  | cons f fs ih =>
    simp only [List.foldl_cons, List.filter_cons]
    by_cases hq : qualifies f
    · rw [if_pos hq, ih, lookupGroup_addToGroups]
      by_cases hp : keyOf f = p
      · simp [hp, hq]
      · simp [hp, hq]
    · rw [if_neg hq, ih]
      simp [hq]

/-- The group of key `p` collects exactly the qualifying folders whose
part before the first dot is `p`, in listing order. -/
theorem lookupGroup_buildGroups (fs : List String) (p : String) :
    lookupGroup (buildGroups fs) p =
      fs.filter (fun f => qualifies f && decide (keyOf f = p)) := by
  have h := lookupGroup_foldl fs [] p
  simpa [lookupGroup, buildGroups] using h

theorem mem_map_fst_addToGroups (gs : List (String × List String)) (q f p : String) :
    p ∈ (addToGroups gs q f).map Prod.fst ↔ p ∈ gs.map Prod.fst ∨ p = q := by
  induction gs with
  | nil => simp [addToGroups, eq_comm]
  | cons g rest ih =>
    obtain ⟨q', l⟩ := g
    by_cases h : q' = q
    · subst h
      constructor
      · intro hm
        rcases (by simpa [addToGroups] using hm) with h' | h'
        · exact Or.inl (by simp [h'])
        · exact Or.inl (by simp [h'])
      · intro hm
        rcases hm with hm | hm
        · rcases (by simpa using hm) with h' | h' <;> simp [addToGroups, h']
        · simp [addToGroups, hm]
    · simp only [addToGroups, if_neg h, List.map_cons, List.mem_cons, ih]
      tauto

theorem mem_keys_foldl (fs : List String) (gs : List (String × List String)) (p : String) :
    p ∈ ((fs.foldl (fun gs f => if qualifies f then addToGroups gs (keyOf f) f else gs)
        gs).map Prod.fst) ↔
      p ∈ gs.map Prod.fst ∨ ∃ f ∈ fs, qualifies f = true ∧ keyOf f = p := by
  induction fs generalizing gs with
  | nil => simp
  | cons f fs ih =>
    simp only [List.foldl_cons]
    by_cases hq : qualifies f
    · rw [if_pos hq, ih, mem_map_fst_addToGroups]
      constructor
      · rintro (⟨h | h⟩ | h)
        · exact Or.inl h
        · exact Or.inr ⟨f, by simp [hq, h]⟩
        · rcases h with ⟨g, hg, h₁, h₂⟩
          exact Or.inr ⟨g, by simp [hg, h₁, h₂]⟩
      · rintro (h | ⟨g, hg, h₁, h₂⟩)
        · exact Or.inl (Or.inl h)
        · rcases (by simpa using hg) with hg | hg
          · subst hg; exact Or.inl (Or.inr h₂.symm)
          · exact Or.inr ⟨g, hg, h₁, h₂⟩
    · rw [if_neg hq, ih]
      constructor
      · rintro (h | ⟨g, hg, h₁, h₂⟩)
        · exact Or.inl h
        · exact Or.inr ⟨g, by simp [hg], h₁, h₂⟩
      · rintro (h | ⟨g, hg, h₁, h₂⟩)
        · exact Or.inl h
        · rcases (by simpa using hg) with hg | hg
          · subst hg; rw [h₁] at hq; simp at hq
          · exact Or.inr ⟨g, hg, h₁, h₂⟩

theorem mem_keys_buildGroups (fs : List String) (p : String) :
    p ∈ (buildGroups fs).map Prod.fst ↔ ∃ f ∈ fs, qualifies f = true ∧ keyOf f = p := by
  have h := mem_keys_foldl fs [] p
  simpa [buildGroups] using h

/-- Looking a key up in the per-group-sorted map sorts the raw group. -/
theorem lookupGroup_map_sortDesc (gs : List (String × List String)) (p : String) :
    lookupGroup (gs.map (fun g => (g.1, sortDesc g.2))) p = sortDesc (lookupGroup gs p) := by
  induction gs with
  | nil => simp [lookupGroup, sortDesc, List.insertionSort]
  | cons g rest ih =>
    obtain ⟨q, l⟩ := g
    by_cases h : q = p
    · subst h
      simp [lookupGroup, List.find?_cons_of_pos]
    · simp only [List.map_cons]
      unfold lookupGroup
      rw [List.find?_cons_of_neg _ (by simpa using h), List.find?_cons_of_neg _ (by simpa using h)]
      exact ih

/-! ## External commands and the configuration record -/

/-- An external command the tools spawn (argument strings are paths). -/
inductive Cmd where
  | move (src dst : String)
  | snap (src dst : String)
  | del (path : String)
deriving DecidableEq

/-- The configuration record (DEFAULT_CONFIG key set) of
`btrbk_restore_tui_pro.py`. -/
structure Config where
  btr_pool_dir : String
  snapshots_dir : String
  auto_cleanup : Bool
  confirm_actions : Bool
  show_timestamps : Bool
  theme : String
deriving DecidableEq

namespace SnapshotManager

/-- The hardcoded mapping from a snapshot type string to the live
subvolume it designates in `restore_snapshot` (lines 133-146 of
`btrbk_restore_tui_pro.py`); `none` is the final `else` branch, which
returns `False` without running anything. -/
def typeSubvol (snapshot_type : String) : Option String :=
  if snapshot_type = "root" then some "@"
  else if snapshot_type = "home" then some "@home"
  else if snapshot_type = "games" then some "@games"
  else none

/-- `SnapshotManager.restore_snapshot` (`btrbk_restore_tui_pro.py`,
lines 126-164).  `runOk` gives each spawned command's outcome (`false`
is a `CalledProcessError`, which aborts the `try` block and returns
`False`).  The result is the returned boolean together with the trace
of commands attempted, in order.  In the source `new_subvol` always
equals `current_subvol`. -/
def restore_snapshot (cfg : Config) (runOk : Cmd → Bool)
    (snapshot snapshot_type : String) : Bool × List Cmd :=
  let source_path := pjoin cfg.snapshots_dir snapshot
  match typeSubvol snapshot_type with
  | none => (false, [])
  | some name =>
    let current_subvol := pjoin cfg.btr_pool_dir name
    let broken_subvol := pjoin cfg.btr_pool_dir (name ++ ".BROKEN")
    let c₁ := Cmd.move current_subvol broken_subvol
    if runOk c₁ = false then (false, [c₁])
    else
      let c₂ := Cmd.snap source_path current_subvol
      if runOk c₂ = false then (false, [c₁, c₂])
      else if cfg.auto_cleanup then
        let c₃ := Cmd.del broken_subvol
        if runOk c₃ = false then (false, [c₁, c₂, c₃]) else (true, [c₁, c₂, c₃])
      else (true, [c₁, c₂])

end SnapshotManager

namespace CLI

/-- Outcomes of the external commands and of the two interactive
prompts in the CLI `restore_snapshot` (`btrbk_restore.py`). -/
structure Outcomes where
  mv_ok : Bool
  snap_ok : Bool
  del_ok : Bool
  answer_remove : Bool
  answer_reboot : Bool
deriving DecidableEq

/-- Lines 96-99 of `btrbk_restore.py`: the target subvolume name is the
group key verbatim (the `"@"` test is redundant but kept). -/
def subvolume_name (k : String) : String := if k = "@" then "@" else k

/-- `restore_snapshot` of `btrbk_restore.py` (lines 91-142).  The pool
directory is modelled by the list of names it contains; paths in the
trace are pool-relative.  `mv old new` renames (destination assumed not
to be an existing directory), `btrfs subvolume snapshot` adds the
target name, `btrfs subvolume delete` removes a name.  A
`CalledProcessError` makes the script `exit(1)`, modelled as `none`;
otherwise the new pool contents and the command trace are returned. -/
def restore_snapshot (pool : List String) (oc : Outcomes)
    (selected_snapshot k ts : String) : Option (List String × List Cmd) :=
  let target := subvolume_name k
  let broken := target ++ ".BROKEN." ++ ts
  let displaced : Option (List String × List Cmd) :=
    if target ∈ pool then
      if oc.mv_ok then some (pool.erase target ++ [broken], [Cmd.move target broken])
      else none
    else some (pool, [])
  match displaced with
  | none => none
  | some (pool₁, tr₁) =>
    if oc.snap_ok = false then none
    else
      let pool₂ := pool₁ ++ [target]
      let tr₂ := tr₁ ++ [Cmd.snap selected_snapshot target]
      if broken ∈ pool₂ then
        if oc.answer_remove then
          if oc.del_ok then some (pool₂.erase broken, tr₂ ++ [Cmd.del broken])
          else none
        else some (pool₂, tr₂)
      else some (pool₂, tr₂)

end CLI

namespace TUIApp

/-- The hardcoded collection filter of the purge code
(`btrbk_restore_tui_pro.py`, lines 390-394). -/
def purgeKeep (item : String) : Bool :=
  startsW item "@." || startsW item "@home." || startsW item "@games."

/-- `process_type` (lines 406-410): the snapshots of one type in the
sorted list, all but the last (most recent) marked for deletion. -/
def process_type (sortedAll : List String) (t : String) : List String :=
  let type_snapshots := sortedAll.filter (fun s => startsW s (t ++ "."))
  if 1 < type_snapshots.length then type_snapshots.dropLast else []

/-- The purge fragment (`btrbk_restore_tui_pro.py`, lines 385-434).
This text sits inside `create_snapshot` after both of its `return`
statements, so it is unreachable dead code, and no class defines a
method named `purge_old_snapshots`; it is embedded only to settle what
the fragment would compute.  It reads the local `snapshots_dir`, which
is undefined there, so were the fragment ever entered its listing line
would raise (`NameError`) into the `except` handler: only the `none`
branch below is reachable, returning the `(-1, [])` sentinel.  `delOk`
gives each delete command's outcome in the unreachable loop. -/
def purge_old_snapshots (listdir : Option (List String)) (isDir : String → Bool)
    (delOk : String → Bool) : Int × List String :=
  match listdir with
  | none => (-1, [])
  | some items =>
    let all_snapshots := items.filter (fun i => isDir i && purgeKeep i)
    if all_snapshots = [] then (0, [])
    else
      let sortedAll := sortAsc all_snapshots
      let to_delete := process_type sortedAll "@" ++ process_type sortedAll "@home" ++
        process_type sortedAll "@games"
      if to_delete = [] then (0, [])
      else (((to_delete.filter delOk).length : Int), to_delete)

end TUIApp

/-! ## InteractionStateMachine (TUIApp of btrbk_restore_tui_pro.py)

One iteration of the `run` loop dispatches a key to the active screen's
handler.  Rendering is not modelled (it only draws; its cursor re-clamp
duplicates the one in `handle_main_input`).  The `q` key exits the loop
and is not a transition.  Keystrokes typed into a modal confirmation
dialog are a separate stream (`StepEnv.keys`) because the dialog runs
its own nested `getch` loop. -/

/-- A key event of the main loop. -/
inductive Key where
  | up
  | down
  | left
  | right
  | enter
  | esc
  | char (c : Char)
deriving DecidableEq

/-- The mutable state of `TUIApp` (its `__init__`, lines 169-177,
together with the config object it owns).  The `crashed` marker models
an uncaught exception escaping the `run` loop and ending the
session. -/
structure AppState where
  config : Config
  current_screen : String
  selected_row : Nat
  selected_col : Nat
  status_message : String
  status_timeout : Nat
  reboot_needed : Bool
  crashed : Bool
deriving DecidableEq

/-- `TUIApp.__init__`: main screen, cursor at the origin, no status, no
pending reboot. -/
def initState (cfg : Config) : AppState :=
  { config := cfg, current_screen := "main", selected_row := 0, selected_col := 0,
    status_message := "", status_timeout := 0, reboot_needed := false, crashed := false }

/-- The environment one loop iteration runs in: the directory listing,
modal keystrokes, and the outcomes of external commands. -/
structure StepEnv where
  listdir : Option (List String)
  isDir : String → Bool
  keys : List Nat
  runOk : Cmd → Bool
  delOk : String → Bool
  create_ok : Bool
  create_msg : String
  editText : Option String

namespace TUIApp

/-- The nested `getch` loop of `confirm_dialog`: consume keystrokes
until y/Y (121/89, yes) or n/N/ESC (110/78/27, no).  The real loop
blocks until a decisive key; an exhausted stream is modelled as
refusal. -/
def confirmLoop : List Nat → Bool × List Nat
  | [] => (false, [])
  | k :: ks =>
    if k = 121 ∨ k = 89 then (true, ks)
    else if k = 110 ∨ k = 78 ∨ k = 27 then (false, ks)
    else confirmLoop ks

/-- `TUIApp.confirm_dialog` (lines 616-644): immediately affirmative,
consuming nothing, when `confirm_actions` is disabled; otherwise the
nested key loop decides. -/
def confirm_dialog (confirm_actions : Bool) (keys : List Nat) : Bool × List Nat :=
  if confirm_actions = false then (true, keys) else confirmLoop keys

/-- `TUIApp.set_status`. -/
def set_status (st : AppState) (message : String) (timeout : Nat) : AppState :=
  { st with status_message := message, status_timeout := timeout }

/-- `TUIApp.handle_snapshot_selection` (lines 720-751).  Takes the
groups and sorted keys its caller just computed.  On a restore that
reports success it sets the sticky reboot flag; the subsequent
immediate-reboot prompt only spawns the reboot command and changes no
state. -/
def handle_snapshot_selection (env : StepEnv) (st : AppState)
    (snapshot_groups : List (String × List String)) (sortedKeys : List String) : AppState :=
  if sortedKeys = [] ∨ sortedKeys.length ≤ st.selected_col then st
  else
    let current_key := sortedKeys.getD st.selected_col ""
    let current_snapshots := lookupGroup snapshot_groups current_key
    if current_snapshots = [] ∨ current_snapshots.length ≤ st.selected_row then st
    else
      let snapshot := current_snapshots.getD st.selected_row ""
      let snapshot_type := if startsW current_key "@" then strTail current_key else current_key
      let d₁ := confirm_dialog st.config.confirm_actions env.keys
      if d₁.1 = false then set_status st "Restoration cancelled" 50
      else
        let st₁ := set_status st "Restoring snapshot..." 100
        if (SnapshotManager.restore_snapshot st₁.config env.runOk snapshot snapshot_type).1 then
          set_status { st₁ with reboot_needed := true }
            "Snapshot restored! Press H to reboot or continue working" 200
        else set_status st₁ "Failed to restore snapshot!" 100

/-- `TUIApp.handle_main_input` (lines 646-718). -/
def handle_main_input (env : StepEnv) (st : AppState) (key : Key) : AppState :=
  let gp := get_snapshots env.listdir env.isDir
  let snapshot_groups := gp.1
  let sortedKeys := gp.2
  if sortedKeys = [] then st
  else
    let st := if sortedKeys.length ≤ st.selected_col then
        { st with selected_col := sortedKeys.length - 1 } else st
    let current_snapshots := lookupGroup snapshot_groups (sortedKeys.getD st.selected_col "")
    match key with
    | Key.up =>
      if 0 < st.selected_row then { st with selected_row := st.selected_row - 1 } else st
    | Key.down =>
      if st.selected_row < current_snapshots.length - 1 then
        { st with selected_row := st.selected_row + 1 }
      else st
    | Key.left =>
      if 0 < st.selected_col then
        let col := st.selected_col - 1
        let new_snapshots := lookupGroup snapshot_groups (sortedKeys.getD col "")
        let row := if new_snapshots = [] then 0
          else min st.selected_row (new_snapshots.length - 1)
        { st with selected_col := col, selected_row := row }
      else st
    | Key.right =>
      if st.selected_col < sortedKeys.length - 1 then
        let col := st.selected_col + 1
        let new_snapshots := lookupGroup snapshot_groups (sortedKeys.getD col "")
        let row := if new_snapshots = [] then 0
          else min st.selected_row (new_snapshots.length - 1)
        { st with selected_col := col, selected_row := row }
      else st
    | Key.enter => handle_snapshot_selection env st snapshot_groups sortedKeys
    | Key.esc => st
    | Key.char c =>
      if c = 's' ∨ c = 'S' then { st with current_screen := "settings", selected_row := 0 }
      else if c = 'r' ∨ c = 'R' then set_status st "Refreshed snapshot list" 50
      else if c = 'h' ∨ c = 'H' then
        if st.reboot_needed then
          if (confirm_dialog st.config.confirm_actions env.keys).1 then st
          else set_status st "Reboot cancelled" 50
        else set_status st "No reboot needed" 50
      else if c = 'p' ∨ c = 'P' then
        if (confirm_dialog st.config.confirm_actions env.keys).1 then
          -- after the status banner, line 699 calls self.purge_old_snapshots(),
          -- a method no class defines: the AttributeError propagates uncaught
          -- out of the run loop and ends the session
          { set_status st "Purging old snapshots..." 100 with crashed := true }
        else set_status st "Purge cancelled" 50
      else if c = 'i' ∨ c = 'I' then
        if (confirm_dialog st.config.confirm_actions env.keys).1 then
          if env.create_ok then set_status st "New snapshots created successfully!" 150
          else set_status st ("Snapshot creation failed: " ++ env.create_msg) 150
        else set_status st "Snapshot creation cancelled" 50
      else st

/-- The editable settings, in screen order (lines 762-763). -/
def settings_keys : List String :=
  ["btr_pool_dir", "snapshots_dir", "auto_cleanup", "confirm_actions", "show_timestamps"]

/-- Whether a config key holds a boolean value. -/
def config_is_bool (k : String) : Bool :=
  decide (k = "auto_cleanup") || decide (k = "confirm_actions") ||
    decide (k = "show_timestamps")

/-- Toggle a boolean config key (`self.config.set(key, not current)`). -/
def config_toggle (cfg : Config) (k : String) : Config :=
  if k = "auto_cleanup" then { cfg with auto_cleanup := !cfg.auto_cleanup }
  else if k = "confirm_actions" then { cfg with confirm_actions := !cfg.confirm_actions }
  else if k = "show_timestamps" then { cfg with show_timestamps := !cfg.show_timestamps }
  else cfg

/-- Set a string config key. -/
def config_set_str (cfg : Config) (k v : String) : Config :=
  if k = "btr_pool_dir" then { cfg with btr_pool_dir := v }
  else if k = "snapshots_dir" then { cfg with snapshots_dir := v }
  else cfg

/-- `TUIApp.edit_setting` (lines 566-614): toggle a boolean key, or
commit the text-dialog input (`none` models a cancelled edit). -/
def edit_setting (env : StepEnv) (st : AppState) (k : String) : AppState :=
  if config_is_bool k then
    set_status { st with config := config_toggle st.config k } ("Toggled " ++ k) 50
  else
    match env.editText with
    | some v =>
      if v.trim = "" then set_status st "No changes made" 50
      else set_status { st with config := config_set_str st.config k (v.trim) }
        ("Updated " ++ k) 50
    | none => set_status st "Edit cancelled" 50

/-- `TUIApp.handle_settings_input` (lines 753-779). -/
def handle_settings_input (env : StepEnv) (st : AppState) (key : Key) : AppState :=
  match key with
  | Key.up =>
    if 0 < st.selected_row then { st with selected_row := st.selected_row - 1 } else st
  | Key.down =>
    if st.selected_row < 5 - 1 then { st with selected_row := st.selected_row + 1 } else st
  | Key.enter => edit_setting env st (settings_keys.getD st.selected_row "")
  | Key.esc => { st with current_screen := "main", selected_row := 0 }
  | Key.char c =>
    if c = ' ' then
      let k := settings_keys.getD st.selected_row ""
      if config_is_bool k then
        set_status { st with config := config_toggle st.config k } ("Toggled " ++ k) 50
      else st
    else if c = 's' ∨ c = 'S' then set_status st "Settings saved manually!" 50
    else st
  | _ => st

end TUIApp

/-- One iteration of `TUIApp.run` (lines 781-814) on a non-quit key:
dispatch to the active screen's handler. -/
def app_step (env : StepEnv) (st : AppState) (key : Key) : AppState :=
  if st.current_screen = "main" then TUIApp.handle_main_input env st key
  else if st.current_screen = "settings" then TUIApp.handle_settings_input env st key
  else st

/-! ## Claims -/

/-- C5: listing returns a key-to-entries mapping for every directory
argument (the function is total), and on a missing or unreadable
directory (a raising `os.listdir`, modelled as `none`) it returns the
empty mapping and empty key list instead of raising. -/
theorem C5_listing_error_yields_empty (isDir : String → Bool) :
    get_snapshots none isDir = ([], []) := rfl

/-- C5 witness: the error case evaluated at a concrete predicate. -/
theorem C5_listing_error_yields_empty_witness :
    get_snapshots none (fun _ => true) = ([], []) :=
  C5_listing_error_yields_empty (fun _ => true)

/-- C6: a directory entry lands in a group exactly when its name starts
with an at sign and contains a dot, and then in the group keyed by the
part of the name before the first dot. -/
theorem C6_grouping_membership (items : List String) (isDir : String → Bool) (f p : String) :
    f ∈ lookupGroup (get_snapshots (some items) isDir).1 p ↔
      f ∈ items.filter isDir ∧ startsW f "@" = true ∧ hasDot f = true ∧ keyOf f = p := by
  have h1 : (get_snapshots (some items) isDir).1 =
      (buildGroups (items.filter isDir)).map (fun g => (g.1, sortDesc g.2)) := rfl
  rw [h1, lookupGroup_map_sortDesc, lookupGroup_buildGroups]
  unfold sortDesc
  rw [List.mem_insertionSort, List.mem_filter]
  unfold qualifies
  constructor
  · rintro ⟨hmem, hcond⟩
    simp only [Bool.and_eq_true, decide_eq_true_eq] at hcond
    exact ⟨hmem, hcond.1.2, hcond.1.1, hcond.2⟩
  · rintro ⟨hmem, h₁, h₂, h₃⟩
    refine ⟨hmem, ?_⟩
    simp [h₁, h₂, h₃]

/-- C3 counterexample: auto-cleanup enabled, rename and clone succeed,
only the cleanup delete fails, yet `restore_snapshot` returns `False`
(the trace shows all three commands were attempted): the cleanup
outcome retroactively fails a restore whose steps 1-3 succeeded. -/
theorem C3_cleanup_failure_fails_restore :
    SnapshotManager.restore_snapshot
        ⟨"/pool", "/snaps", true, true, true, "default"⟩
        (fun c => match c with
          | Cmd.del _ => false
          | _ => true)
        "@home.20240101_000000" "home" =
      (false,
        [Cmd.move "/pool/@home" "/pool/@home.BROKEN",
         Cmd.snap "/snaps/@home.20240101_000000" "/pool/@home",
         Cmd.del "/pool/@home.BROKEN"]) := by rfl

/-- C3 amended: for a recognized snapshot type, restore reports success
if and only if rename and clone succeed and, when auto-cleanup is
enabled, the cleanup delete also succeeds; so a cleanup failure turns
the whole restore into a reported failure instead of being reported
independently. -/
theorem C3_success_requires_cleanup (cfg : Config) (runOk : Cmd → Bool)
    (snapshot stype name : String) (h : SnapshotManager.typeSubvol stype = some name) :
    (SnapshotManager.restore_snapshot cfg runOk snapshot stype).1 =
      (runOk (Cmd.move (pjoin cfg.btr_pool_dir name)
          (pjoin cfg.btr_pool_dir (name ++ ".BROKEN"))) &&
        runOk (Cmd.snap (pjoin cfg.snapshots_dir snapshot) (pjoin cfg.btr_pool_dir name)) &&
        (!cfg.auto_cleanup ||
          runOk (Cmd.del (pjoin cfg.btr_pool_dir (name ++ ".BROKEN"))))) := by
  unfold SnapshotManager.restore_snapshot
  rw [h]
  rcases h₁ : runOk (Cmd.move (pjoin cfg.btr_pool_dir name)
      (pjoin cfg.btr_pool_dir (name ++ ".BROKEN"))) with _ | _
  · simp [h₁]
  · rcases h₂ : runOk (Cmd.snap (pjoin cfg.snapshots_dir snapshot)
        (pjoin cfg.btr_pool_dir name)) with _ | _
    · simp [h₁, h₂]
    · rcases hac : cfg.auto_cleanup with _ | _
      · simp [h₁, h₂, hac]
      · rcases h₃ : runOk (Cmd.del (pjoin cfg.btr_pool_dir (name ++ ".BROKEN"))) with _ | _
        · simp [h₁, h₂, hac, h₃]
        · simp [h₁, h₂, hac, h₃]

/-- C3 witness: the amended equation evaluated at a concrete input. -/
theorem C3_success_requires_cleanup_witness :
    (SnapshotManager.restore_snapshot ⟨"/pool", "/snaps", true, true, true, "default"⟩
        (fun _ => true) "@home.x" "home").1 =
      ((fun _ : Cmd => true) (Cmd.move (pjoin "/pool" "@home")
          (pjoin "/pool" ("@home" ++ ".BROKEN"))) &&
        (fun _ : Cmd => true) (Cmd.snap (pjoin "/snaps" "@home.x") (pjoin "/pool" "@home")) &&
        (!(true : Bool) ||
          (fun _ : Cmd => true) (Cmd.del (pjoin "/pool" ("@home" ++ ".BROKEN"))))) :=
  C3_success_requires_cleanup ⟨"/pool", "/snaps", true, true, true, "default"⟩
    (fun _ => true) "@home.x" "home" "@home" (by decide)

/-- C4: the failing input evaluated.  For a snapshot of the root group
the selection handler passes the group key with its first character
stripped, so the snapshot type is the empty string; `restore_snapshot`
recognizes only "root", "home" and "games" and returns `False` without
attempting any command, for every configuration and every command
outcome — the claimed rename-aside, clone and `success=true` never
happen. -/
theorem C4_root_restore_always_fails (cfg : Config) (runOk : Cmd → Bool) :
    (if startsW "@" "@" then strTail "@" else "@") = "" ∧
    SnapshotManager.restore_snapshot cfg runOk "@.20240102_0000"
        (if startsW "@" "@" then strTail "@" else "@") = (false, []) := by
  refine ⟨by decide, ?_⟩
  rfl

/-! Helper facts about the timestamped displaced names. -/

theorem broken_ne_target (t mid ts : String) (hmid : mid.data ≠ []) :
    t ++ mid ++ ts ≠ t := by
  intro h
  have hlen := congrArg (fun s => s.data.length) h
  simp only [String.data_append, List.length_append] at hlen
  have : mid.data.length = 0 := by omega
  exact hmid (List.eq_nil_of_length_eq_zero this)

theorem broken_name_inj {t ts₁ ts₂ : String}
    (h : t ++ ".BROKEN." ++ ts₁ = t ++ ".BROKEN." ++ ts₂) : ts₁ = ts₂ := by
  have hd := congrArg String.data h
  simp only [String.data_append, List.append_assoc] at hd
  have h₁ := List.append_cancel_left hd
  have h₂ := List.append_cancel_left h₁
  cases ts₁; cases ts₂
  exact congrArg String.mk h₂

/-- C2 counterexample: in `SnapshotManager.restore_snapshot` of
`btrbk_restore_tui_pro.py` the displaced copy is always the fixed
sibling `<subvol>.BROKEN`, with no timestamp: two successful restores
of different snapshots in one session rename to the very same
destination, so they cannot leave two distinct displaced siblings; and
the rename runs unconditionally, so when the `mv` fails (in particular
when the target is absent) the method returns `False` with nothing
restored instead of skipping the rename and proceeding. -/
theorem C2_fixed_sibling_refutes_timestamp :
    (SnapshotManager.restore_snapshot ⟨"/pool", "/snaps", false, true, true, "default"⟩
        (fun _ => true) "@home.20240101_000000" "home" =
      (true, [Cmd.move "/pool/@home" "/pool/@home.BROKEN",
              Cmd.snap "/snaps/@home.20240101_000000" "/pool/@home"])) ∧
    (SnapshotManager.restore_snapshot ⟨"/pool", "/snaps", false, true, true, "default"⟩
        (fun _ => true) "@home.20240202_000000" "home" =
      (true, [Cmd.move "/pool/@home" "/pool/@home.BROKEN",
              Cmd.snap "/snaps/@home.20240202_000000" "/pool/@home"])) ∧
    (SnapshotManager.restore_snapshot ⟨"/pool", "/snaps", false, true, true, "default"⟩
        (fun c => match c with | Cmd.move _ _ => false | _ => true)
        "@home.20240101_000000" "home" =
      (false, [Cmd.move "/pool/@home" "/pool/@home.BROKEN"])) := by
  decide

/-- C2 amended: the TUI restore (`SnapshotManager.restore_snapshot`)
displaces the current subvolume to the fixed, untimestamped sibling
`<subvol>.BROKEN` — the first command of every attempt on a hardcoded
type — and a failed rename (in particular an absent target, since the
`mv` runs unconditionally) aborts the restore with only that command
attempted.  The timestamped protocol the claim describes is the CLI
variant (`btrbk_restore.py`): there a present target is renamed to a
sibling carrying the timestamp captured at that moment, an absent
target skips the rename (no `mv` in the trace) and the restore still
proceeds, and two back-to-back successful restores with distinct
timestamps leave two distinct displaced `.BROKEN.<ts>` siblings in the
pool (external commands succeeding, interactive cleanup declined). -/
theorem C2_displacement_fixed_vs_timestamped :
    (∀ (cfg : Config) (runOk : Cmd → Bool) (snapshot stype name : String),
      SnapshotManager.typeSubvol stype = some name →
      (SnapshotManager.restore_snapshot cfg runOk snapshot stype).2.head? =
        some (Cmd.move (pjoin cfg.btr_pool_dir name)
          (pjoin cfg.btr_pool_dir (name ++ ".BROKEN")))) ∧
    (∀ (cfg : Config) (runOk : Cmd → Bool) (snapshot stype name : String),
      SnapshotManager.typeSubvol stype = some name →
      runOk (Cmd.move (pjoin cfg.btr_pool_dir name)
          (pjoin cfg.btr_pool_dir (name ++ ".BROKEN"))) = false →
      SnapshotManager.restore_snapshot cfg runOk snapshot stype =
        (false, [Cmd.move (pjoin cfg.btr_pool_dir name)
          (pjoin cfg.btr_pool_dir (name ++ ".BROKEN"))])) ∧
    (∀ (pool : List String) (oc : CLI.Outcomes) (snap k ts₁ ts₂ : String),
      oc.mv_ok = true → oc.snap_ok = true → oc.answer_remove = false →
      (CLI.subvolume_name k ∉ pool →
        CLI.restore_snapshot pool oc snap k ts₁ =
          some (pool ++ [CLI.subvolume_name k], [Cmd.snap snap (CLI.subvolume_name k)])) ∧
      (CLI.subvolume_name k ∈ pool → ts₁ ≠ ts₂ →
        CLI.restore_snapshot pool oc snap k ts₁ =
          some (pool.erase (CLI.subvolume_name k) ++
              [CLI.subvolume_name k ++ ".BROKEN." ++ ts₁] ++ [CLI.subvolume_name k],
            [Cmd.move (CLI.subvolume_name k) (CLI.subvolume_name k ++ ".BROKEN." ++ ts₁),
             Cmd.snap snap (CLI.subvolume_name k)]) ∧
        ∃ pool₂ tr₂,
          CLI.restore_snapshot
              (pool.erase (CLI.subvolume_name k) ++
                [CLI.subvolume_name k ++ ".BROKEN." ++ ts₁] ++ [CLI.subvolume_name k])
              oc snap k ts₂ = some (pool₂, tr₂) ∧
          CLI.subvolume_name k ++ ".BROKEN." ++ ts₁ ∈ pool₂ ∧
          CLI.subvolume_name k ++ ".BROKEN." ++ ts₂ ∈ pool₂ ∧
          CLI.subvolume_name k ++ ".BROKEN." ++ ts₁ ≠
            CLI.subvolume_name k ++ ".BROKEN." ++ ts₂)) := by
  refine ⟨?_, ?_, ?_⟩
  · intro cfg runOk snapshot stype name hname
    simp only [SnapshotManager.restore_snapshot, hname]
    split_ifs <;> rfl
  · intro cfg runOk snapshot stype name hname hmv
    simp [SnapshotManager.restore_snapshot, hname, hmv]
  · intro pool oc snap k ts₁ ts₂ hmv hsnap hrm
    constructor
    · intro habs
      by_cases hb : CLI.subvolume_name k ++ ".BROKEN." ++ ts₁ ∈ pool ++ [CLI.subvolume_name k]
      · simp [CLI.restore_snapshot, habs, hsnap, hrm, hb]
      · simp [CLI.restore_snapshot, habs, hsnap, hrm, hb]
    · intro hpres hts
      have hne₁ : CLI.subvolume_name k ++ ".BROKEN." ++ ts₁ ≠ CLI.subvolume_name k :=
        broken_ne_target _ _ _ (by decide)
      have hne₂ : CLI.subvolume_name k ++ ".BROKEN." ++ ts₂ ≠ CLI.subvolume_name k :=
        broken_ne_target _ _ _ (by decide)
      have hbb : CLI.subvolume_name k ++ ".BROKEN." ++ ts₁ ≠
          CLI.subvolume_name k ++ ".BROKEN." ++ ts₂ := fun h => hts (broken_name_inj h)
      refine ⟨?_, ?_⟩
      · have hmem : CLI.subvolume_name k ++ ".BROKEN." ++ ts₁ ∈
            pool.erase (CLI.subvolume_name k) ++
              [CLI.subvolume_name k ++ ".BROKEN." ++ ts₁] ++ [CLI.subvolume_name k] := by
          simp
        simp [CLI.restore_snapshot, hpres, hmv, hsnap, hmem, hrm]
      · set target := CLI.subvolume_name k with htarget
        set b₁ := target ++ ".BROKEN." ++ ts₁ with hb₁
        set b₂ := target ++ ".BROKEN." ++ ts₂ with hb₂
        set pool₁ := pool.erase target ++ [b₁] ++ [target] with hpool₁
        have hpres₂ : target ∈ pool₁ := by simp [hpool₁]
        have hb₁mem : b₁ ∈ pool₁.erase target ++ [b₂] ++ [target] := by
          have hb₁p : b₁ ∈ pool₁ := by simp [hpool₁]
          have := (List.mem_erase_of_ne hne₁).mpr hb₁p
          simp [this]
        refine ⟨pool₁.erase target ++ [b₂] ++ [target],
          [Cmd.move target b₂, Cmd.snap snap target], ?_, hb₁mem, by simp, hbb⟩
        have hmem₂ : b₂ ∈ pool₁.erase target ++ [b₂] ++ [target] := by simp
        simp [CLI.restore_snapshot, hpres₂, hmv, hsnap, hmem₂, hrm]

/-- C2 witness: the amended parts at concrete inputs — the fixed
`.BROKEN` destination and the rename-failure abort in the TUI restore,
and the timestamped two-sibling protocol in the CLI restore on a pool
without, then with, the live root subvolume. -/
theorem C2_displacement_fixed_vs_timestamped_witness :
    ((SnapshotManager.restore_snapshot ⟨"/pool", "/snaps", false, true, true, "default"⟩
        (fun _ => true) "@home.20240101_000000" "home").2.head? =
      some (Cmd.move (pjoin "/pool" "@home") (pjoin "/pool" ("@home" ++ ".BROKEN")))) ∧
    (SnapshotManager.restore_snapshot ⟨"/pool", "/snaps", false, true, true, "default"⟩
        (fun _ => false) "@home.20240101_000000" "home" =
      (false, [Cmd.move (pjoin "/pool" "@home") (pjoin "/pool" ("@home" ++ ".BROKEN"))])) ∧
    (CLI.restore_snapshot [] ⟨true, true, true, false, false⟩ "@.x" "@" "20240101" =
      some ([] ++ [CLI.subvolume_name "@"], [Cmd.snap "@.x" (CLI.subvolume_name "@")])) ∧
    (CLI.restore_snapshot ["@"] ⟨true, true, true, false, false⟩ "@.x" "@" "20240101" =
        some ((["@"].erase (CLI.subvolume_name "@") ++
            [CLI.subvolume_name "@" ++ ".BROKEN." ++ "20240101"] ++ [CLI.subvolume_name "@"]),
          [Cmd.move (CLI.subvolume_name "@")
            (CLI.subvolume_name "@" ++ ".BROKEN." ++ "20240101"),
           Cmd.snap "@.x" (CLI.subvolume_name "@")]) ∧
      ∃ pool₂ tr₂,
        CLI.restore_snapshot
            (["@"].erase (CLI.subvolume_name "@") ++
              [CLI.subvolume_name "@" ++ ".BROKEN." ++ "20240101"] ++ [CLI.subvolume_name "@"])
            ⟨true, true, true, false, false⟩ "@.x" "@" "20240102" = some (pool₂, tr₂) ∧
        CLI.subvolume_name "@" ++ ".BROKEN." ++ "20240101" ∈ pool₂ ∧
        CLI.subvolume_name "@" ++ ".BROKEN." ++ "20240102" ∈ pool₂ ∧
        CLI.subvolume_name "@" ++ ".BROKEN." ++ "20240101" ≠
          CLI.subvolume_name "@" ++ ".BROKEN." ++ "20240102") :=
  ⟨C2_displacement_fixed_vs_timestamped.1 ⟨"/pool", "/snaps", false, true, true, "default"⟩
      (fun _ => true) "@home.20240101_000000" "home" "@home" rfl,
   C2_displacement_fixed_vs_timestamped.2.1 ⟨"/pool", "/snaps", false, true, true, "default"⟩
      (fun _ => false) "@home.20240101_000000" "home" "@home" rfl rfl,
   (C2_displacement_fixed_vs_timestamped.2.2 [] ⟨true, true, true, false, false⟩ "@.x" "@"
      "20240101" "20240102" rfl rfl rfl).1 (by decide),
   (C2_displacement_fixed_vs_timestamped.2.2 ["@"] ⟨true, true, true, false, false⟩ "@.x" "@"
      "20240101" "20240102" rfl rfl rfl).2 (by decide) (by decide)⟩

/-- C7: the key list is sorted with the literal key "@" first and the
rest ascending (the `keyLe` order), every group is sorted by descending
full-name comparison (newest first), and on the concrete directory of
the specification scenario the listing groups and orders exactly as
claimed. -/
theorem C7_listing_order :
    (∀ listdir isDir, List.Sorted keyLe (get_snapshots listdir isDir).2) ∧
    (∀ listdir isDir p, List.Sorted descLe (lookupGroup (get_snapshots listdir isDir).1 p)) ∧
    get_snapshots (some ["@.20240101_0000", "@.20240102_0000", "@home.20240101_0000"])
        (fun _ => true) =
      ([("@", ["@.20240102_0000", "@.20240101_0000"]),
        ("@home", ["@home.20240101_0000"])],
       ["@", "@home"]) := by
  refine ⟨?_, ?_, ?_⟩
  · intro listdir isDir
    cases listdir with
    | none => exact List.sorted_nil
    | some items => exact List.sorted_insertionSort keyLe _
  · intro listdir isDir p
    cases listdir with
    | none => exact List.sorted_nil
    | some items =>
      have h1 : (get_snapshots (some items) isDir).1 =
          (buildGroups (items.filter isDir)).map (fun g => (g.1, sortDesc g.2)) := rfl
      rw [h1, lookupGroup_map_sortDesc]
      exact List.sorted_insertionSort descLe _
  · decide

/-- The cursor clamp never touches the config record. -/
theorem config_clamp (c : Prop) [Decidable c] (st : AppState) (n : Nat) :
    (if c then { st with selected_col := n } else st).config = st.config := by
  split <;> rfl

/-- C10: with confirm_actions disabled every confirmation dialog
returns an affirmative answer immediately and consumes no modal
keystroke, and consequently one loop step behaves identically whatever
the operator would have typed into the dialogs — each guarded operation
(restore, purge, create-snapshot, reboot) proceeds exactly as if
confirmed. -/
theorem C10_confirm_disabled_is_yes :
    (∀ keys, TUIApp.confirm_dialog false keys = (true, keys)) ∧
    (∀ (env : StepEnv) (st : AppState) (key : Key) (ks : List Nat),
      st.config.confirm_actions = false →
      app_step { env with keys := ks } st key = app_step env st key) := by
  constructor
  · intro keys; rfl
  · intro env st key ks h
    have hsel : ∀ (st' : AppState) gs ks₀, st'.config.confirm_actions = false →
        TUIApp.handle_snapshot_selection { env with keys := ks } st' gs ks₀ =
          TUIApp.handle_snapshot_selection env st' gs ks₀ := by
      intro st' gs ks₀ h'
      simp [TUIApp.handle_snapshot_selection, TUIApp.confirm_dialog, h']
    cases key <;>
      simp [app_step, TUIApp.handle_main_input, TUIApp.handle_settings_input,
        TUIApp.confirm_dialog, TUIApp.edit_setting, h, hsel, config_clamp]

/-- C10 witness: the bypass evaluated at a concrete state and step. -/
theorem C10_confirm_disabled_is_yes_witness :
    TUIApp.confirm_dialog false [110] = (true, [110]) ∧
    app_step
        { listdir := some ["@.a"], isDir := fun _ => true, keys := [110],
          runOk := fun _ => true, delOk := fun _ => true, create_ok := true,
          create_msg := "", editText := none }
        (initState ⟨"/pool", "/snaps", false, false, true, "default"⟩) Key.enter =
      app_step
        { listdir := some ["@.a"], isDir := fun _ => true, keys := [],
          runOk := fun _ => true, delOk := fun _ => true, create_ok := true,
          create_msg := "", editText := none }
        (initState ⟨"/pool", "/snaps", false, false, true, "default"⟩) Key.enter :=
  ⟨C10_confirm_disabled_is_yes.1 [110],
   C10_confirm_disabled_is_yes.2
     { listdir := some ["@.a"], isDir := fun _ => true, keys := [],
       runOk := fun _ => true, delOk := fun _ => true, create_ok := true,
       create_msg := "", editText := none }
     (initState ⟨"/pool", "/snaps", false, false, true, "default"⟩) Key.enter [110] rfl⟩

/-! ## The sticky reboot flag -/

/-- The condition under which `handle_snapshot_selection` performs a
restore that reports success: a valid selection, a confirmed dialog,
and a `restore_snapshot` returning `True`. -/
def sel_restore_success (env : StepEnv) (st : AppState)
    (snapshot_groups : List (String × List String)) (sortedKeys : List String) : Bool :=
  if sortedKeys = [] ∨ sortedKeys.length ≤ st.selected_col then false
  else
    let current_key := sortedKeys.getD st.selected_col ""
    let current_snapshots := lookupGroup snapshot_groups current_key
    if current_snapshots = [] ∨ current_snapshots.length ≤ st.selected_row then false
    else
      (TUIApp.confirm_dialog st.config.confirm_actions env.keys).1 &&
        (SnapshotManager.restore_snapshot st.config env.runOk
          (current_snapshots.getD st.selected_row "")
          (if startsW current_key "@" then strTail current_key else current_key)).1

/-- The condition under which one main-screen ENTER step performs a
restore that reports success. -/
def main_restore_success (env : StepEnv) (st : AppState) : Bool :=
  let gp := get_snapshots env.listdir env.isDir
  if gp.2 = [] then false
  else
    sel_restore_success env
      (if gp.2.length ≤ st.selected_col then { st with selected_col := gp.2.length - 1 } else st)
      gp.1 gp.2

/-- The cursor clamp never touches the reboot flag. -/
theorem reboot_clamp (c : Prop) [Decidable c] (st : AppState) (n : Nat) :
    (if c then { st with selected_col := n } else st).reboot_needed = st.reboot_needed := by
  split <;> rfl

theorem sel_reboot (env : StepEnv) (st : AppState)
    (gs : List (String × List String)) (ks : List String) :
    (TUIApp.handle_snapshot_selection env st gs ks).reboot_needed =
      (st.reboot_needed || sel_restore_success env st gs ks) := by
  by_cases h₁ : (ks = [] ∨ ks.length ≤ st.selected_col)
  · simp [TUIApp.handle_snapshot_selection, sel_restore_success, h₁]
  · by_cases h₂ : (lookupGroup gs (ks[st.selected_col]?.getD "") = [] ∨
        (lookupGroup gs (ks[st.selected_col]?.getD "")).length ≤ st.selected_row)
    · simp [TUIApp.handle_snapshot_selection, sel_restore_success, h₁, h₂]
    · rcases hd : (TUIApp.confirm_dialog st.config.confirm_actions env.keys).1 with _ | _
      · simp [TUIApp.handle_snapshot_selection, sel_restore_success, TUIApp.set_status,
          h₁, h₂, hd]
      · rcases hr : (SnapshotManager.restore_snapshot st.config env.runOk
            ((lookupGroup gs (ks[st.selected_col]?.getD ""))[st.selected_row]?.getD "")
            (if startsW (ks[st.selected_col]?.getD "") "@" then
              strTail (ks[st.selected_col]?.getD "")
              else ks[st.selected_col]?.getD "")).1 with _ | _ <;>
          simp [TUIApp.handle_snapshot_selection, sel_restore_success, TUIApp.set_status,
            h₁, h₂, hd, hr]

set_option maxHeartbeats 1000000 in
theorem main_reboot_nonenter (env : StepEnv) (st : AppState) (key : Key)
    (hk : key ≠ Key.enter) :
    (TUIApp.handle_main_input env st key).reboot_needed = st.reboot_needed := by
  cases key with
  | enter => exact absurd rfl hk
  | up =>
    simp only [TUIApp.handle_main_input]
    split_ifs <;> rfl
  | down =>
    simp only [TUIApp.handle_main_input]
    split_ifs <;> rfl
  | left =>
    simp only [TUIApp.handle_main_input]
    split_ifs <;> rfl
  | right =>
    simp only [TUIApp.handle_main_input]
    split_ifs <;> rfl
  | esc =>
    simp only [TUIApp.handle_main_input]
    split_ifs <;> rfl
  | char c =>
    simp only [TUIApp.handle_main_input]
    by_cases hks : (get_snapshots env.listdir env.isDir).2 = []
    · rw [if_pos hks]
    · rw [if_neg hks]
      by_cases h1 : (c = 's' ∨ c = 'S')
      · rw [if_pos h1]; exact reboot_clamp _ _ _
      · rw [if_neg h1]
        by_cases h2 : (c = 'r' ∨ c = 'R')
        · rw [if_pos h2]; exact reboot_clamp _ _ _
        · rw [if_neg h2]
          by_cases h3 : (c = 'h' ∨ c = 'H')
          · rw [if_pos h3]; split_ifs <;> rfl
          · rw [if_neg h3]
            by_cases h4 : (c = 'p' ∨ c = 'P')
            · rw [if_pos h4]; split_ifs <;> rfl
            · rw [if_neg h4]
              by_cases h5 : (c = 'i' ∨ c = 'I')
              · rw [if_pos h5]; split_ifs <;> rfl
              · rw [if_neg h5]; exact reboot_clamp _ _ _

theorem settings_reboot (env : StepEnv) (st : AppState) (key : Key) :
    (TUIApp.handle_settings_input env st key).reboot_needed = st.reboot_needed := by
  cases key with
  | enter =>
    simp only [TUIApp.handle_settings_input, TUIApp.edit_setting, TUIApp.set_status]
    cases env.editText with
    | none => dsimp only; split_ifs <;> rfl
    | some v => dsimp only; split_ifs <;> rfl
  | up =>
    simp only [TUIApp.handle_settings_input]
    split_ifs <;> rfl
  | down =>
    simp only [TUIApp.handle_settings_input]
    split_ifs <;> rfl
  | left => rfl
  | right => rfl
  | esc => rfl
  | char c =>
    simp only [TUIApp.handle_settings_input, TUIApp.set_status]
    split_ifs <;> rfl

theorem app_step_reboot (env : StepEnv) (st : AppState) (key : Key) :
    (app_step env st key).reboot_needed =
      (st.reboot_needed ||
        (decide (st.current_screen = "main") && decide (key = Key.enter) &&
          main_restore_success env st)) := by
  unfold app_step
  by_cases hm : st.current_screen = "main"
  · rw [if_pos hm]
    simp only [hm, decide_True, Bool.true_and]
    by_cases he : key = Key.enter
    · subst he
      simp only [decide_True, Bool.true_and]
      simp only [TUIApp.handle_main_input, main_restore_success]
      by_cases hks : (get_snapshots env.listdir env.isDir).2 = []
      · simp [hks]
      · simp only [if_neg hks]
        rw [sel_reboot, reboot_clamp]
    · rw [main_reboot_nonenter env st key he]
      simp [he]
  · rw [if_neg hm]
    simp only [hm, decide_False, Bool.false_and, Bool.and_false, Bool.or_false]
    by_cases hs : st.current_screen = "settings"
    · rw [if_pos hs, settings_reboot]
    · rw [if_neg hs]

theorem C8_sticky_reboot_flag :
    (∀ (env : StepEnv) (st : AppState) (key : Key),
      (app_step env st key).reboot_needed =
        (st.reboot_needed ||
          (decide (st.current_screen = "main") && decide (key = Key.enter) &&
            main_restore_success env st))) ∧
    (∀ (steps : List (StepEnv × Key)) (st : AppState), st.reboot_needed = true →
      (steps.foldl (fun s e => app_step e.1 s e.2) st).reboot_needed = true) := by
  refine ⟨app_step_reboot, ?_⟩
  intro steps
  induction steps with
  | nil => intro st h; exact h
  | cons e rest ih =>
    intro st h
    apply ih
    rw [app_step_reboot, h]
    rfl

/-- C8 witness: a set flag survives a concrete step. -/
theorem C8_sticky_reboot_flag_witness :
    (([({ listdir := some ["@.a"], isDir := fun _ => true, keys := [], runOk := fun _ => true,
          delOk := fun _ => true, create_ok := true, create_msg := "", editText := none },
        Key.char 'r')] : List (StepEnv × Key)).foldl (fun s e => app_step e.1 s e.2)
      { config := ⟨"/pool", "/snaps", false, true, true, "default"⟩, current_screen := "main",
        selected_row := 0, selected_col := 0, status_message := "", status_timeout := 0,
        reboot_needed := true, crashed := false }).reboot_needed = true :=
  C8_sticky_reboot_flag.2 _ _ rfl

/-! ## Navigation keeps the cursor valid -/

theorem getD_mem_of_lt {l : List String} {i : Nat} (h : i < l.length) (d : String) :
    l.getD i d ∈ l := by
  rw [List.getD_eq_getElem?_getD, List.getElem?_eq_getElem h]
  exact List.getElem_mem h

/-- Every key the listing returns names a nonempty group. -/
theorem lookup_ne_nil_of_mem_keys (ld : Option (List String)) (d : String → Bool) (p : String)
    (hp : p ∈ (get_snapshots ld d).2) :
    lookupGroup (get_snapshots ld d).1 p ≠ [] := by
  cases ld with
  | none => simp [get_snapshots] at hp
  | some items =>
    have h2 : (get_snapshots (some items) d).2 =
        ((buildGroups (items.filter d)).map Prod.fst).insertionSort keyLe := rfl
    rw [h2, List.mem_insertionSort] at hp
    obtain ⟨f, hf, hq, hk⟩ := (mem_keys_buildGroups _ p).mp hp
    have h1 : (get_snapshots (some items) d).1 =
        (buildGroups (items.filter d)).map (fun g => (g.1, sortDesc g.2)) := rfl
    rw [h1, lookupGroup_map_sortDesc, lookupGroup_buildGroups]
    intro hnil
    have hmem : f ∈ sortDesc
        ((items.filter d).filter (fun f => qualifies f && decide (keyOf f = p))) := by
      unfold sortDesc
      rw [List.mem_insertionSort, List.mem_filter]
      exact ⟨hf, by simp [hq, hk]⟩
    rw [hnil] at hmem
    simp at hmem

/-- The cursor of the main screen indexes a valid entry of the active
group (or there are no groups at all): the active column is in range
and the active row is in range for the active column's group. -/
def nav_invariant (env : StepEnv) (st : AppState) : Prop :=
  (get_snapshots env.listdir env.isDir).2 = [] ∨
    (st.selected_col < (get_snapshots env.listdir env.isDir).2.length ∧
      st.selected_row < (lookupGroup (get_snapshots env.listdir env.isDir).1
        ((get_snapshots env.listdir env.isDir).2[st.selected_col]?.getD "")).length)

instance (env : StepEnv) (st : AppState) : Decidable (nav_invariant env st) := by
  unfold nav_invariant
  infer_instance

theorem nav_preserve (env : StepEnv) (st : AppState) (k : Key)
    (hk : k = Key.up ∨ k = Key.down ∨ k = Key.left ∨ k = Key.right)
    (hs : st.current_screen = "main") (hinv : nav_invariant env st) :
    (app_step env st k).current_screen = "main" ∧ nav_invariant env (app_step env st k) := by
  by_cases hks : (get_snapshots env.listdir env.isDir).2 = []
  · have hid : app_step env st k = st := by
      rcases hk with h | h | h | h <;> subst h <;>
        simp [app_step, hs, TUIApp.handle_main_input, hks]
    rw [hid]
    exact ⟨hs, hinv⟩
  · obtain ⟨hcol, hrow⟩ := hinv.resolve_left hks
    have hclamp : ¬ ((get_snapshots env.listdir env.isDir).2.length ≤ st.selected_col) := by
      omega
    unfold nav_invariant
    rcases hk with h | h | h | h <;> subst h
    · by_cases h0 : 0 < st.selected_row
      · have hid : app_step env st Key.up = { st with selected_row := st.selected_row - 1 } := by
          simp [app_step, hs, TUIApp.handle_main_input, hks, hclamp, h0]
        rw [hid]
        exact ⟨hs, Or.inr ⟨hcol, by dsimp only; omega⟩⟩
      · have hid : app_step env st Key.up = st := by
          simp [app_step, hs, TUIApp.handle_main_input, hks, hclamp, h0]
        rw [hid]
        exact ⟨hs, Or.inr ⟨hcol, hrow⟩⟩
    · by_cases h0 : st.selected_row <
          (lookupGroup (get_snapshots env.listdir env.isDir).1
            ((get_snapshots env.listdir env.isDir).2[st.selected_col]?.getD "")).length - 1
      · have hid : app_step env st Key.down =
            { st with selected_row := st.selected_row + 1 } := by
          simp [app_step, hs, TUIApp.handle_main_input, hks, hclamp, h0]
        rw [hid]
        exact ⟨hs, Or.inr ⟨hcol, by dsimp only; omega⟩⟩
      · have hid : app_step env st Key.down = st := by
          simp [app_step, hs, TUIApp.handle_main_input, hks, hclamp, h0]
        rw [hid]
        exact ⟨hs, Or.inr ⟨hcol, hrow⟩⟩
    · by_cases h0 : 0 < st.selected_col
      · have hne : lookupGroup (get_snapshots env.listdir env.isDir).1
            ((get_snapshots env.listdir env.isDir).2[st.selected_col - 1]?.getD "") ≠ [] := by
          apply lookup_ne_nil_of_mem_keys
          have := getD_mem_of_lt (l := (get_snapshots env.listdir env.isDir).2)
            (i := st.selected_col - 1) (by omega) ""
          simpa [List.getD_eq_getElem?_getD] using this
        have hpos := List.length_pos.mpr hne
        have hid : app_step env st Key.left =
            { st with
              selected_col := st.selected_col - 1
              selected_row := min st.selected_row
                ((lookupGroup (get_snapshots env.listdir env.isDir).1
                  ((get_snapshots env.listdir env.isDir).2[st.selected_col - 1]?.getD
                    "")).length - 1) } := by
          simp [app_step, hs, TUIApp.handle_main_input, hks, hclamp, h0, hne]
        rw [hid]
        exact ⟨hs, Or.inr ⟨by dsimp only; omega, by dsimp only; omega⟩⟩
      · have hid : app_step env st Key.left = st := by
          simp [app_step, hs, TUIApp.handle_main_input, hks, hclamp, h0]
        rw [hid]
        exact ⟨hs, Or.inr ⟨hcol, hrow⟩⟩
    · by_cases h0 : st.selected_col < (get_snapshots env.listdir env.isDir).2.length - 1
      · have hne : lookupGroup (get_snapshots env.listdir env.isDir).1
            ((get_snapshots env.listdir env.isDir).2[st.selected_col + 1]?.getD "") ≠ [] := by
          apply lookup_ne_nil_of_mem_keys
          have := getD_mem_of_lt (l := (get_snapshots env.listdir env.isDir).2)
            (i := st.selected_col + 1) (by omega) ""
          simpa [List.getD_eq_getElem?_getD] using this
        have hpos := List.length_pos.mpr hne
        have hid : app_step env st Key.right =
            { st with
              selected_col := st.selected_col + 1
              selected_row := min st.selected_row
                ((lookupGroup (get_snapshots env.listdir env.isDir).1
                  ((get_snapshots env.listdir env.isDir).2[st.selected_col + 1]?.getD
                    "")).length - 1) } := by
          simp [app_step, hs, TUIApp.handle_main_input, hks, hclamp, h0, hne]
        rw [hid]
        exact ⟨hs, Or.inr ⟨by dsimp only; omega, by dsimp only; omega⟩⟩
      · have hid : app_step env st Key.right = st := by
          simp [app_step, hs, TUIApp.handle_main_input, hks, hclamp, h0]
        rw [hid]
        exact ⟨hs, Or.inr ⟨hcol, hrow⟩⟩

/-- C9: the initial cursor is valid, and any sequence of navigation
keys (up, down, left, right) on the main screen keeps the pair (active
column, active row) indexing a valid entry of the active group — or
there are no groups to index. -/
theorem C9_navigation_keeps_cursor_valid :
    (∀ (env : StepEnv) (cfg : Config), nav_invariant env (initState cfg)) ∧
    (∀ (env : StepEnv) (keys : List Key) (st : AppState),
      (∀ k ∈ keys, k = Key.up ∨ k = Key.down ∨ k = Key.left ∨ k = Key.right) →
      st.current_screen = "main" → nav_invariant env st →
      nav_invariant env (keys.foldl (fun s k => app_step env s k) st)) := by
  constructor
  · intro env cfg
    by_cases hks : (get_snapshots env.listdir env.isDir).2 = []
    · exact Or.inl hks
    · have hpos : 0 < (get_snapshots env.listdir env.isDir).2.length :=
        List.length_pos.mpr hks
      refine Or.inr ⟨hpos, ?_⟩
      have hne := lookup_ne_nil_of_mem_keys env.listdir env.isDir
        ((get_snapshots env.listdir env.isDir).2.getD 0 "") (getD_mem_of_lt hpos "")
      have hne' : lookupGroup (get_snapshots env.listdir env.isDir).1
          ((get_snapshots env.listdir env.isDir).2[(0 : Nat)]?.getD "") ≠ [] := by
        simpa [List.getD_eq_getElem?_getD] using hne
      exact List.length_pos.mpr hne'
  · intro env keys
    induction keys with
    | nil => intro st _ _ hinv; exact hinv
    | cons k ks ih =>
      intro st hk hs hinv
      have h := nav_preserve env st k (hk k (by simp)) hs hinv
      exact ih _ (fun k' hk' => hk k' (by simp [hk'])) h.1 h.2

/-- C9 witness: a concrete navigation sequence on a concrete listing. -/
theorem C9_navigation_keeps_cursor_valid_witness :
    nav_invariant
      { listdir := some ["@.a", "@.b", "@home.a"], isDir := fun _ => true, keys := [],
        runOk := fun _ => true, delOk := fun _ => true, create_ok := true, create_msg := "",
        editText := none }
      ([Key.down, Key.right, Key.up, Key.left].foldl
        (fun s k => app_step
          { listdir := some ["@.a", "@.b", "@home.a"], isDir := fun _ => true, keys := [],
            runOk := fun _ => true, delOk := fun _ => true, create_ok := true, create_msg := "",
            editText := none } s k)
        (initState ⟨"/pool", "/snaps", false, true, true, "default"⟩)) :=
  C9_navigation_keeps_cursor_valid.2
    { listdir := some ["@.a", "@.b", "@home.a"], isDir := fun _ => true, keys := [],
      runOk := fun _ => true, delOk := fun _ => true, create_ok := true, create_msg := "",
      editText := none }
    [Key.down, Key.right, Key.up, Key.left]
    (initState ⟨"/pool", "/snaps", false, true, true, "default"⟩)
    (by decide) rfl
    (C9_navigation_keeps_cursor_valid.1 _ ⟨"/pool", "/snaps", false, true, true, "default"⟩)

/-! ## Purge key: the missing method -/

/-- C1: the purge feature is non-functional.  On the main screen with a
nonempty listing, pressing p (or P) and confirming the dialog reaches
line 699, `self.purge_old_snapshots()` — a method no class defines —
so the AttributeError propagates uncaught out of the run loop and ends
the session (the `crashed` marker) instead of purging anything.  The
only other purge text in the file, the dead fragment embedded as
`TUIApp.purge_old_snapshots`, reads the undefined `snapshots_dir`
(modelled as the raising listing `none`), so even if it could be
entered it would return the `(-1, [])` error sentinel for every
command-outcome oracle, deleting nothing. -/
theorem C1_purge_key_crashes :
    (∀ (env : StepEnv) (st : AppState) (c : Char), st.current_screen = "main" →
      (c = 'p' ∨ c = 'P') → (get_snapshots env.listdir env.isDir).2 ≠ [] →
      (TUIApp.confirm_dialog st.config.confirm_actions env.keys).1 = true →
      (app_step env st (Key.char c)).crashed = true) ∧
    (∀ (isDir delOk : String → Bool),
      TUIApp.purge_old_snapshots none isDir delOk = (-1, [])) := by
  refine ⟨?_, fun isDir delOk => rfl⟩
  intro env st c hm hc hne hd
  rcases hc with h | h <;> subst h <;>
    by_cases hcl : (get_snapshots env.listdir env.isDir).2.length ≤ st.selected_col <;>
    simp +decide [app_step, hm, TUIApp.handle_main_input, hne, hcl, hd,
      TUIApp.set_status]

/-- C1 witness: a concrete main-screen state and environment in which
the p key with an affirmative confirmation keystroke ends the
session. -/
theorem C1_purge_key_crashes_witness :
    (app_step
      { listdir := some ["@.a"], isDir := fun _ => true, keys := [121],
        runOk := fun _ => true, delOk := fun _ => true, create_ok := true,
        create_msg := "", editText := none }
      (initState ⟨"/pool", "/snaps", false, true, true, "default"⟩)
      (Key.char 'p')).crashed = true :=
  C1_purge_key_crashes.1
    { listdir := some ["@.a"], isDir := fun _ => true, keys := [121],
      runOk := fun _ => true, delOk := fun _ => true, create_ok := true,
      create_msg := "", editText := none }
    (initState ⟨"/pool", "/snaps", false, true, true, "default"⟩)
    'p' rfl (Or.inl rfl) (by decide) (by decide)
